import Mathlib

/-!
Verification of the session/conversation engine of the Copperx payout bot
(`bot.py`).  The Python source is shallowly embedded: each helper and each
handler becomes an executable Lean definition over explicit state, and the
claims about the bot are settled as theorems about those definitions.

Modelling conventions, stated once:
* timestamps are the six calendar fields a `datetime` carries; `strptime`
  with the fixed format `"%Y-%m-%d %H:%M:%S"` and `strftime` on the same
  format are embedded as `parseTimestamp` / `formatTimestamp`;
* character classes (digits, whitespace) are modelled over their ASCII
  forms, extended with the specific non-ASCII code points this
  development exercises (the superscript and subscript digit characters,
  which Python's `str.isdigit` accepts although they are not decimal
  digits);
* Python `float` values are modelled exactly: finite values as rationals
  (the IEEE rounding of the runtime is not modelled) together with the
  distinguished `inf`, `-inf` and `nan` values and their comparison rules;
* the MySQL `users` table is a map from chat id to an optional row;
  `REPLACE INTO` overwrites the whole row, `UPDATE` mutates one field of
  an existing row;
* remote HTTP calls are parameters: each handler takes the outcome of the
  calls it would issue (a status code with an optionally-decodable JSON
  body, or a raised network error) and the model records which calls the
  handler actually performs.
-/

/-- ASCII decimal digit test, `'0'` through `'9'`. -/
def isAsciiDigit (c : Char) : Bool := '0' ≤ c && c ≤ '9'

/-- Numeric value of an ASCII digit character. -/
def digitVal (c : Char) : Nat := c.toNat - 48

/-- Whitespace as stripped by the embedded parsers (the ASCII forms of
Python's `\s`: space, tab, newline, vertical tab, form feed, carriage
return). -/
def isWsChar (c : Char) : Bool :=
  c = ' ' || c = '\t' || c = '\n' || c = '\r' || c.toNat = 11 || c.toNat = 12

/-- A calendar timestamp with the six fields `datetime.strptime` produces
for the format `"%Y-%m-%d %H:%M:%S"`. -/
structure DT where
  year : Nat
  month : Nat
  day : Nat
  hour : Nat
  minute : Nat
  second : Nat
deriving DecidableEq, Repr

/-- Python compares `datetime` values field-lexicographically; this is the
`<=` of that order. -/
def dtLe (a b : DT) : Bool :=
  if a.year ≠ b.year then a.year < b.year
  else if a.month ≠ b.month then a.month < b.month
  else if a.day ≠ b.day then a.day < b.day
  else if a.hour ≠ b.hour then a.hour < b.hour
  else if a.minute ≠ b.minute then a.minute < b.minute
  else a.second ≤ b.second

/-- Gregorian leap-year rule used by `datetime`. -/
def isLeapYear (y : Nat) : Bool :=
  y % 4 = 0 && (y % 100 ≠ 0 || y % 400 = 0)

/-- Number of days in a month, as validated by the `datetime` constructor. -/
def daysInMonth (y m : Nat) : Nat :=
  if m = 2 then (if isLeapYear y then 29 else 28)
  else if m = 4 || m = 6 || m = 9 || m = 11 then 30
  else 31

/-- `timedelta(hours=1)` added to a timestamp, with calendar carry. -/
def addOneHour (t : DT) : DT :=
  if t.hour + 1 ≤ 23 then { t with hour := t.hour + 1 }
  else if t.day + 1 ≤ daysInMonth t.year t.month then
    { t with hour := 0, day := t.day + 1 }
  else if t.month + 1 ≤ 12 then
    { t with hour := 0, day := 1, month := t.month + 1 }
  else
    { t with hour := 0, day := 1, month := 1, year := t.year + 1 }

/-- Zero-padding to two digits, as `strftime` emits for `%m %d %H %M %S`. -/
def pad2 (n : Nat) : String :=
  if n < 10 then "0" ++ toString n else toString n

/-- Zero-padding to four digits, as `strftime` emits for `%Y`. -/
def pad4 (n : Nat) : String :=
  if n < 10 then "000" ++ toString n
  else if n < 100 then "00" ++ toString n
  else if n < 1000 then "0" ++ toString n
  else toString n

/-- `datetime.strftime("%Y-%m-%d %H:%M:%S")`. -/
def formatTimestamp (t : DT) : String :=
  pad4 t.year ++ "-" ++ pad2 t.month ++ "-" ++ pad2 t.day ++ " " ++
    pad2 t.hour ++ ":" ++ pad2 t.minute ++ ":" ++ pad2 t.second

/-- Exactly four ASCII digits, the `%Y` field of `strptime`. -/
def parseYear4 : List Char → Option (Nat × List Char)
  | a :: b :: c :: d :: rest =>
    if isAsciiDigit a && isAsciiDigit b && isAsciiDigit c && isAsciiDigit d then
      some (((digitVal a * 10 + digitVal b) * 10 + digitVal c) * 10 + digitVal d, rest)
    else none
  | _ => none

/-- A one- or two-digit numeric field of `strptime` constrained to the
range `lo..hi` (two digits are preferred, exactly as the generated regular
expression matches them). -/
def parse2Field (lo hi : Nat) : List Char → Option (Nat × List Char)
  | a :: b :: rest =>
    if isAsciiDigit a && isAsciiDigit b &&
        lo ≤ digitVal a * 10 + digitVal b && digitVal a * 10 + digitVal b ≤ hi then
      some (digitVal a * 10 + digitVal b, rest)
    else if isAsciiDigit a && lo ≤ digitVal a && digitVal a ≤ hi then
      some (digitVal a, b :: rest)
    else none
  | [a] =>
    if isAsciiDigit a && lo ≤ digitVal a && digitVal a ≤ hi then
      some (digitVal a, [])
    else none
  | [] => none

/-- A literal separator character of the format string. -/
def expectChar (c : Char) : List Char → Option (List Char)
  | x :: rest => if x = c then some rest else none
  | [] => none

/-- A whitespace run: the format's literal space matches one or more
whitespace characters. -/
def skipWs1 : List Char → Option (List Char)
  | x :: rest => if isWsChar x then some (rest.dropWhile isWsChar) else none
  | [] => none

/-- `datetime.strptime(s, "%Y-%m-%d %H:%M:%S")`, returning `none` where the
Python call raises `ValueError`: the fields must match the format with the
per-field ranges of the generated pattern, the whole string must be
consumed, and the `datetime` constructor additionally requires a positive
year and a day that exists in the month. -/
def parseTimestamp (s : String) : Option DT := do
  let cs := s.data
  let (y, cs) ← parseYear4 cs
  let cs ← expectChar '-' cs
  let (mo, cs) ← parse2Field 1 12 cs
  let cs ← expectChar '-' cs
  let (d, cs) ← parse2Field 1 31 cs
  let cs ← skipWs1 cs
  let (h, cs) ← parse2Field 0 23 cs
  let cs ← expectChar ':' cs
  let (mi, cs) ← parse2Field 0 59 cs
  let cs ← expectChar ':' cs
  let (sec, cs) ← parse2Field 0 59 cs
  if cs = [] && 1 ≤ y && d ≤ daysInMonth y mo then
    some ⟨y, mo, d, h, mi, sec⟩
  else none

/-- One row of the `users` table (the chat id is the key of the store and
is kept outside the row).  Every payload column is nullable. -/
structure UserRec where
  email : Option String
  token : Option String
  organizationId : Option String
  tokenExpiry : Option String
  defaultWallet : Option String
deriving DecidableEq, Repr

/-- The `users` table: a map from chat id to an optional row. -/
def Store : Type := Int → Option UserRec

/-- `save_user`: `REPLACE INTO users (chat_id, email, token,
organization_id, token_expiry) VALUES (...)`.  The whole row is replaced;
the `default_wallet` column is not in the column list, so it becomes NULL. -/
def saveUser (db : Store) (chatId : Int) (email token org expiry : Option String) :
    Store :=
  fun c => if c = chatId then some ⟨email, token, org, expiry, none⟩ else db c

/-- `update_default_wallet`: `UPDATE users SET default_wallet = %s WHERE
chat_id = %s` — mutates one field of an existing row, no-op when the row is
absent. -/
def updateDefaultWallet (db : Store) (chatId : Int) (walletId : String) : Store :=
  fun c =>
    if c = chatId then
      match db c with
      | some u => some { u with defaultWallet := some walletId }
      | none => none
    else db c

/-- `DELETE FROM users WHERE chat_id = %s` as run by the logout handler. -/
def deleteUser (db : Store) (chatId : Int) : Store :=
  fun c => if c = chatId then none else db c

/-- Python truthiness of an optional string: `None` and `""` are falsy. -/
def truthyS : Option String → Bool
  | none => false
  | some s => s ≠ ""

/-- Outcome of `refresh_token_if_needed`, identified by what the function
returns together with the reply it emits: `valid` returns the record,
`missingPrompt` replies "Please /login to continue.", `expiredPrompt`
replies "Your session has expired. Please /login again to continue.",
`malformedPrompt` replies "Session error. Please /login again." -/
inductive Verdict where
  | valid (u : UserRec)
  | missingPrompt
  | expiredPrompt
  | malformedPrompt
deriving DecidableEq, Repr

/-- `refresh_token_if_needed(user, chat_id, reply_func)`: no record or a
falsy `token_expiry` prompts for login; otherwise the expiry string is
parsed (`strptime`) and, when the parse succeeds, compared with the clock —
`now >= expiry` is the expired case, anything else returns the record
unmodified; a parse failure (`ValueError`) is the session-error case. -/
def refreshTokenIfNeeded (user : Option UserRec) (now : DT) : Verdict :=
  match user with
  | none => .missingPrompt
  | some u =>
    match u.tokenExpiry with
    | none => .missingPrompt
    | some s =>
      if s = "" then .missingPrompt
      else
        match parseTimestamp s with
        | none => .malformedPrompt
        | some e => if dtLe e now then .expiredPrompt else .valid u

/-- Whether a verdict is the authenticated one. -/
def Verdict.isValid : Verdict → Bool
  | .valid _ => true
  | _ => false

/-- A Python `float` value as this development needs it: finite values are
kept exactly as rationals, alongside the distinguished non-finite values. -/
inductive PyFloat where
  | finite (q : ℚ)
  | inf
  | neginf
  | nan
deriving DecidableEq, Repr

/-- Python `<=` on floats: any comparison with `nan` is false, `-inf` is
below and `inf` above everything else. -/
def pyLe : PyFloat → PyFloat → Bool
  | .nan, _ => false
  | _, .nan => false
  | .neginf, _ => true
  | _, .neginf => false
  | .finite a, .finite b => a ≤ b
  | .finite _, .inf => true
  | .inf, .inf => true
  | .inf, .finite _ => false

/-- Python `<` on floats, with the same `nan` rule. -/
def pyLt : PyFloat → PyFloat → Bool
  | .nan, _ => false
  | _, .nan => false
  | .neginf, .neginf => false
  | .neginf, _ => true
  | _, .neginf => false
  | .finite a, .finite b => a < b
  | .finite _, .inf => true
  | .inf, _ => false

/-- Python truthiness of an optional float: `None` and `0.0` are falsy. -/
def truthyF : Option PyFloat → Bool
  | none => false
  | some (.finite q) => q ≠ 0
  | some _ => true

/-- A run of digits in a `float` literal, where a single underscore may
stand between two digits.  Returns the accumulated value, the number of
digits consumed and the rest of the input; the extra fuel argument only
bounds the recursion. -/
def digitsUAux : Nat → Nat → Nat → List Char → Nat × Nat × List Char
  | 0, acc, cnt, cs => (acc, cnt, cs)
  | fuel + 1, acc, cnt, cs =>
    match cs with
    | [] => (acc, cnt, [])
    | c :: rest =>
      if isAsciiDigit c then digitsUAux fuel (10 * acc + digitVal c) (cnt + 1) rest
      else if c = '_' && cnt ≠ 0 then
        match rest with
        | d :: rest2 =>
          if isAsciiDigit d then digitsUAux fuel (10 * acc + digitVal d) (cnt + 1) rest2
          else (acc, cnt, cs)
        | [] => (acc, cnt, cs)
      else (acc, cnt, cs)

/-- Digit run starting from an empty accumulator. -/
def digitsU (cs : List Char) : Nat × Nat × List Char :=
  digitsUAux (cs.length + 1) 0 0 cs

/-- Exact value of a decimal literal: integer part, fractional digits with
their count, and a signed decimal exponent. -/
def decValue (ip fv fl : Nat) (e : Int) : ℚ :=
  ((ip : ℚ) + (fv : ℚ) / (10 : ℚ) ^ (fl : ℕ)) * (10 : ℚ) ^ (e : ℤ)

/-- The optional exponent part `("e"|"E") [sign] digits` of a `float`
literal; returns the signed exponent and the rest. -/
def parseExpPart (cs : List Char) : Option (Int × List Char) :=
  match cs with
  | c :: rest =>
    if c = 'e' || c = 'E' then
      let (negE, rest2) :=
        match rest with
        | s :: r2 => if s = '-' then (true, r2) else if s = '+' then (false, r2) else (false, rest)
        | [] => (false, rest)
      let (ev, ec, rest3) := digitsU rest2
      if ec = 0 then none
      else some (if negE then -(ev : Int) else (ev : Int), rest3)
    else some (0, cs)
  | [] => some (0, [])

/-- The digits of a `float` literal after the optional sign: either
`digits ["." [digits]] [exp]` or `"." digits [exp]`; the whole input must
be consumed. -/
def parseDecimal (cs : List Char) : Option ℚ :=
  match cs with
  | '.' :: rest =>
    let (fv, fl, rest2) := digitsU rest
    if fl = 0 then none
    else
      match parseExpPart rest2 with
      | some (e, []) => some (decValue 0 fv fl e)
      | _ => none
  | _ =>
    let (ip, ic, rest) := digitsU cs
    if ic = 0 then none
    else
      match rest with
      | '.' :: rest2 =>
        let (fv, fl, rest3) := digitsU rest2
        match parseExpPart rest3 with
        | some (e, []) => some (decValue ip fv fl e)
        | _ => none
      | _ =>
        match parseExpPart rest with
        | some (e, []) => some (decValue ip 0 0 e)
        | _ => none

/-- `float(s)` on a string, returning `none` where Python raises
`ValueError`: surrounding whitespace is stripped, an optional sign is
followed by either a decimal literal (underscores allowed between digits)
or one of the case-insensitive words `inf`, `infinity`, `nan`. -/
def pyFloatParse (s : String) : Option PyFloat :=
  let cs := ((s.data.dropWhile isWsChar).reverse.dropWhile isWsChar).reverse
  match cs with
  | [] => none
  | _ =>
    let (neg, cs2) :=
      match cs with
      | c :: rest => if c = '-' then (true, rest) else if c = '+' then (false, rest) else (false, cs)
      | [] => (false, cs)
    let low := cs2.map Char.toLower
    if low = ['i', 'n', 'f'] || low = ['i', 'n', 'f', 'i', 'n', 'i', 't', 'y'] then
      some (if neg then .neginf else .inf)
    else if low = ['n', 'a', 'n'] then some .nan
    else
      match parseDecimal cs2 with
      | some q => some (.finite (if neg then -q else q))
      | none => none

/-- Python `str.isdigit` on one character, over the code points this
development exercises: the ASCII decimal digits, plus the Latin-1 and
super/subscript digit characters (code points 178, 179, 185, 8304,
8308–8313, 8320–8329), which Python classifies as digits although they are
not decimal digits.  Digit characters of other scripts are outside the
modelled alphabet. -/
def pyIsdigitChar (c : Char) : Bool :=
  isAsciiDigit c ||
  c.toNat = 178 || c.toNat = 179 || c.toNat = 185 ||
  c.toNat = 8304 || (8308 ≤ c.toNat && c.toNat ≤ 8313) ||
  (8320 ≤ c.toNat && c.toNat ≤ 8329)

/-- Python `str.isdigit`: non-empty and every character a digit. -/
def pyIsdigit (s : String) : Bool :=
  !s.isEmpty && s.data.all pyIsdigitChar

/-- A string of exactly six decimal digits — the notion the specification
uses for a well-formed OTP (decimal digits are modelled as their ASCII
forms). -/
def isSixDecimalDigits (s : String) : Bool :=
  s.length = 6 && s.data.all isAsciiDigit

/-- The user-visible replies of the handlers, one tag per distinct message
of the source. -/
inductive Msg where
  | loginPrompt
  | expiredPrompt
  | sessionErrorPrompt
  | genericError
  | networkError
  | invalidOtp
  | invalidOtpRemote
  | sessionErrorLogin
  | loginSuccess
  | sendTypePrompt
  | recipientPrompt
  | amountPrompt
  | confirmSendPrompt
  | sessionErrorSend
  | withdrawPrompt
  | confirmWithdrawPrompt
  | invalidAmount
  | transferSuccess
  | transferFailed
  | balancesReply
  | noBalances
  | remoteError
  | decodeError
  | setDefaultSuccess
  | sessionErrorWithdraw
  | withdrawSuccess
  | withdrawFailed
  | cancelled
deriving DecidableEq, Repr

/-- The replies that prompt the user to `/login` (the three messages
`refresh_token_if_needed` can emit all do). -/
def isLoginPrompt : Msg → Bool
  | .loginPrompt => true
  | .expiredPrompt => true
  | .sessionErrorPrompt => true
  | _ => false

/-- Reply emitted by `refresh_token_if_needed` on each non-valid verdict. -/
def verdictReply : Verdict → Option Msg
  | .valid _ => none
  | .missingPrompt => some .loginPrompt
  | .expiredPrompt => some .expiredPrompt
  | .malformedPrompt => some .sessionErrorPrompt

/-- Outcome of one remote HTTP call as a handler observes it: a response
with a status code and an optionally-decodable JSON body (`none` body =
`response.json()` raises), or a raised network error. -/
inductive ApiOutcome (β : Type) where
  | resp (status : Nat) (body : Option β)
  | netErr
deriving DecidableEq, Repr

/-- The per-user `context.user_data` dictionary, with one field per key the
source stores in it (`"email"`, `"sid"`, `"send_type"`, `"recipient"`,
`"amount"`, `"withdraw_amount"`); an absent key is `none`. -/
structure UserData where
  email : Option String
  sid : Option String
  sendType : Option String
  recipient : Option String
  amount : Option PyFloat
  withdrawAmount : Option PyFloat
deriving DecidableEq, Repr

/-- A `user_data` dictionary with no keys set. -/
def UserData.empty : UserData := ⟨none, none, none, none, none, none⟩

/-- An entry of the `/wallets/balances` response body. -/
structure BalEntry where
  amount : Option String
  network : Option String
deriving DecidableEq, Repr

/-- Result of the `balance` handler: the reply sent, how many times the
remote balances endpoint was called, and the bearer token used for that
call when one was made (`some none` would be Python's `Bearer None`). -/
structure BalanceResult where
  reply : Msg
  fetchCalls : Nat
  usedToken : Option (Option String)
deriving DecidableEq, Repr

/-- The `balance` command handler.  `avail` is whether the backing MySQL
store can be reached: when it cannot, `get_user` raises inside the
handler's `try` and the catch-all `except Exception` replies with the
generic unexpected-error message.  Otherwise the fetched record passes
through `refresh_token_if_needed`; on a non-valid verdict the handler
returns before the HTTP call, and on a valid one it issues exactly one
`GET /wallets/balances` with the record's token. -/
def balance (avail : Bool) (db : Store) (chatId : Int) (now : DT)
    (api : ApiOutcome (List BalEntry)) : BalanceResult :=
  if avail then
    match refreshTokenIfNeeded (db chatId) now with
    | .valid u =>
      match api with
      | .netErr => ⟨.networkError, 1, some u.token⟩
      | .resp status body =>
        if status = 200 then
          match body with
          | none => ⟨.decodeError, 1, some u.token⟩
          | some l => if l.isEmpty then ⟨.noBalances, 1, some u.token⟩
                      else ⟨.balancesReply, 1, some u.token⟩
        else ⟨.remoteError, 1, some u.token⟩
    | .missingPrompt => ⟨.loginPrompt, 0, none⟩
    | .expiredPrompt => ⟨.expiredPrompt, 0, none⟩
    | .malformedPrompt => ⟨.sessionErrorPrompt, 0, none⟩
  else ⟨.genericError, 0, none⟩

/-- Body of the `/auth/email-otp/authenticate` response. -/
structure AuthBody where
  accessToken : Option String
deriving DecidableEq, Repr

/-- Body of the `/auth/me` response as `verify_otp` reads it. -/
structure ProfileBody where
  organizationId : Option String
deriving DecidableEq, Repr

/-- The environment `verify_otp` runs against: the outcomes of the two
remote calls it may issue and whether the MySQL store is reachable. -/
structure VerifyCtx where
  authResp : ApiOutcome AuthBody
  profileResp : ApiOutcome ProfileBody
  storeAvail : Bool
deriving DecidableEq, Repr

/-- The conversation states of the login `ConversationHandler`. -/
inductive LoginStep where
  | awaitEmail
  | awaitOtp
deriving DecidableEq, Repr

/-- Result of the `verify_otp` handler: the store after the handler, the
login conversation state it returns (`none` is `ConversationHandler.END`),
the reply, whether the OTP-verification endpoint was called, and the
organization id passed to `start_pusher` when the Notification Bridge was
started. -/
structure VerifyResult where
  db : Store
  next : Option LoginStep
  reply : Msg
  authCalled : Bool
  pusherStarted : Option (Option String)

/-- The `verify_otp` handler.  The OTP must pass `otp.isdigit()` and have
length 6, else it re-prompts in the OTP state before any HTTP call; then
the flow's `email`/`sid` must be truthy, else a session-error reply ends
the conversation.  On a 200 from the authenticate endpoint the profile is
fetched with the new token (its status code is not checked), the expiry is
`now + 1 hour` formatted with `strftime`, `save_user` replaces the row, the
success reply is sent, `start_pusher` is invoked with the organization id
and the conversation ends.  A non-200 with a decodable body re-prompts in
the OTP state; raised network errors and any other raise (JSON decode
failure, unreachable store) end the conversation with the corresponding
error reply. -/
def verifyOtp (otp : String) (ud : UserData) (chatId : Int) (now : DT)
    (ctx : VerifyCtx) (db : Store) : VerifyResult :=
  if !(pyIsdigit otp && otp.length = 6) then
    ⟨db, some .awaitOtp, .invalidOtp, false, none⟩
  else if !(truthyS ud.email && truthyS ud.sid) then
    ⟨db, none, .sessionErrorLogin, false, none⟩
  else
    match ctx.authResp with
    | .netErr => ⟨db, none, .networkError, true, none⟩
    | .resp status body =>
      if status = 200 then
        match body with
        | none => ⟨db, none, .genericError, true, none⟩
        | some ab =>
          match ctx.profileResp with
          | .netErr => ⟨db, none, .networkError, true, none⟩
          | .resp _ pbody =>
            match pbody with
            | none => ⟨db, none, .genericError, true, none⟩
            | some pb =>
              let expiry := formatTimestamp (addOneHour now)
              if ctx.storeAvail then
                ⟨saveUser db chatId ud.email ab.accessToken pb.organizationId (some expiry),
                  none, .loginSuccess, true, some pb.organizationId⟩
              else ⟨db, none, .genericError, true, none⟩
      else
        match body with
        | none => ⟨db, none, .genericError, true, none⟩
        | some _ => ⟨db, some .awaitOtp, .invalidOtpRemote, true, none⟩

/-- The conversation states of the send `ConversationHandler`. -/
inductive SendStep where
  | awaitType
  | awaitRecipient
  | awaitAmount
  | awaitConfirm
deriving DecidableEq, Repr

/-- The conversation states of the withdraw `ConversationHandler`. -/
inductive WithdrawStep where
  | awaitWAmount
  | awaitWConfirm
deriving DecidableEq, Repr

/-- Result of one message-handler step of a flow: the `user_data` after the
step, the conversation state returned (`none` is `ConversationHandler.END`)
and the reply. -/
structure StepResult (σ : Type) where
  ud : UserData
  next : Option σ
  reply : Msg
deriving DecidableEq, Repr

/-- The `send_amount` handler: `float(text)` must succeed and the value
must not satisfy `<= 0`, else it re-prompts in the amount state; the
accepted value is stored in `user_data["amount"]`, then a falsy
`recipient` ends the conversation with a session error and otherwise the
flow moves to the confirmation state. -/
def sendAmount (text : String) (ud : UserData) : StepResult SendStep :=
  match pyFloatParse text with
  | none => ⟨ud, some .awaitAmount, .invalidAmount⟩
  | some v =>
    if pyLe v (.finite 0) then ⟨ud, some .awaitAmount, .invalidAmount⟩
    else
      let ud2 := { ud with amount := some v }
      if truthyS ud2.recipient then ⟨ud2, some .awaitConfirm, .confirmSendPrompt⟩
      else ⟨ud2, none, .sessionErrorSend⟩

/-- The `withdraw_amount` handler: the same amount validation, storing the
value in `user_data["withdraw_amount"]` and moving to the withdraw
confirmation state. -/
def withdrawAmount (text : String) (ud : UserData) : StepResult WithdrawStep :=
  match pyFloatParse text with
  | none => ⟨ud, some .awaitWAmount, .invalidAmount⟩
  | some v =>
    if pyLe v (.finite 0) then ⟨ud, some .awaitWAmount, .invalidAmount⟩
    else ⟨{ ud with withdrawAmount := some v }, some .awaitWConfirm, .confirmWithdrawPrompt⟩

/-- The HTTP request `send_confirm` posts when it reaches the transfer
call: the endpoint chosen from the recipient kind, and the JSON payload's
amount and recipient fields. -/
structure SendRequest where
  endpoint : String
  amount : PyFloat
  recipient : String
deriving DecidableEq, Repr

/-- Result of the `send_confirm` callback: the reply, the transfer request
issued when one was, and the token it carried. -/
structure SendConfirmResult where
  reply : Msg
  request : Option SendRequest
  usedToken : Option (Option String)
deriving DecidableEq, Repr

/-- The `send_confirm` callback: the session is re-validated; with a valid
session and truthy `send_type`/`recipient`/`amount` the transfer request is
posted — to `/transfers/send` for the email kind, `/transfers/wallet-withdraw`
otherwise — carrying the stored amount; the conversation always ends. -/
def sendConfirm (avail : Bool) (db : Store) (chatId : Int) (now : DT)
    (ud : UserData) (api : ApiOutcome Unit) : SendConfirmResult :=
  if avail then
    match refreshTokenIfNeeded (db chatId) now with
    | .valid u =>
      if truthyS ud.sendType && truthyS ud.recipient && truthyF ud.amount then
        match ud.sendType, ud.recipient, ud.amount with
        | some k, some r, some a =>
          let req : SendRequest :=
            ⟨if k = "email" then "/transfers/send" else "/transfers/wallet-withdraw", a, r⟩
          match api with
          | .netErr => ⟨.networkError, some req, some u.token⟩
          | .resp status _ =>
            if status = 200 then ⟨.transferSuccess, some req, some u.token⟩
            else ⟨.transferFailed, some req, some u.token⟩
        | _, _, _ => ⟨.sessionErrorSend, none, none⟩
      else ⟨.sessionErrorSend, none, none⟩
    | .missingPrompt => ⟨.loginPrompt, none, none⟩
    | .expiredPrompt => ⟨.expiredPrompt, none, none⟩
    | .malformedPrompt => ⟨.sessionErrorPrompt, none, none⟩
  else ⟨.genericError, none, none⟩

/-- The observable effects of `setdefault_callback`, in the order the code
performs them. -/
inductive SdEffect where
  | localUpdate (walletId : String)
  | remotePut (walletId : String)
deriving DecidableEq, Repr

/-- Result of the `setdefault_callback` handler. -/
structure SetDefaultResult where
  db : Store
  reply : Msg
  trace : List SdEffect

/-- The `setdefault_callback` handler: after session validation the local
store's `default_wallet` is updated first, and only then is
`PUT /wallets/default` issued; the local update is never rolled back, so a
failing remote call (non-200 status or raised network error) leaves the
new wallet id persisted locally. -/
def setdefaultCallback (avail : Bool) (db : Store) (chatId : Int) (now : DT)
    (walletId : String) (api : ApiOutcome Unit) : SetDefaultResult :=
  if avail then
    match refreshTokenIfNeeded (db chatId) now with
    | .valid _ =>
      let db2 := updateDefaultWallet db chatId walletId
      match api with
      | .netErr => ⟨db2, .networkError, [.localUpdate walletId, .remotePut walletId]⟩
      | .resp status _ =>
        if status = 200 then
          ⟨db2, .setDefaultSuccess, [.localUpdate walletId, .remotePut walletId]⟩
        else ⟨db2, .remoteError, [.localUpdate walletId, .remotePut walletId]⟩
    | .missingPrompt => ⟨db, .loginPrompt, []⟩
    | .expiredPrompt => ⟨db, .expiredPrompt, []⟩
    | .malformedPrompt => ⟨db, .sessionErrorPrompt, []⟩
  else ⟨db, .genericError, []⟩

/-- The dispatcher-level per-user state: the shared `user_data` dictionary
and the current state of each of the three `ConversationHandler`s (`none`
when that conversation is not active). -/
structure BotState where
  userData : UserData
  loginConv : Option LoginStep
  sendConv : Option SendStep
  withdrawConv : Option WithdrawStep
deriving DecidableEq, Repr

/-- The flow entry commands the dispatcher model routes. -/
inductive Cmd where
  | send
  | withdraw
deriving DecidableEq, Repr

/-- The `send` entry handler: on a valid session it replies with the
recipient-type keyboard and enters the send conversation at its first
state; on any other verdict it replies with the corresponding login prompt
and the conversation is not entered.  `user_data` and the other
conversations are untouched. -/
def onSendEntry (st : BotState) (userOpt : Option UserRec) (now : DT) :
    BotState × Msg :=
  match refreshTokenIfNeeded userOpt now with
  | .valid _ => ({ st with sendConv := some .awaitType }, .sendTypePrompt)
  | .missingPrompt => (st, .loginPrompt)
  | .expiredPrompt => (st, .expiredPrompt)
  | .malformedPrompt => (st, .sessionErrorPrompt)

/-- The `withdraw` entry handler, analogous to the `send` entry. -/
def onWithdrawEntry (st : BotState) (userOpt : Option UserRec) (now : DT) :
    BotState × Msg :=
  match refreshTokenIfNeeded userOpt now with
  | .valid _ => ({ st with withdrawConv := some .awaitWAmount }, .withdrawPrompt)
  | .missingPrompt => (st, .loginPrompt)
  | .expiredPrompt => (st, .expiredPrompt)
  | .malformedPrompt => (st, .sessionErrorPrompt)

/-- Routing of a flow entry command by the dispatcher.  When the command's
own conversation is already active, none of its states or fallbacks match a
command update and no other handler accepts it, so the update is dropped;
when it is not active, the entry point handler runs.  In either case no
handler of another conversation runs, so the other conversations keep
their states and `user_data` is not reset. -/
def dispatchCommand (c : Cmd) (st : BotState) (userOpt : Option UserRec)
    (now : DT) : BotState × Option Msg :=
  match c with
  | .send =>
    if st.sendConv.isSome then (st, none)
    else
      let r := onSendEntry st userOpt now
      (r.1, some r.2)
  | .withdraw =>
    if st.withdrawConv.isSome then (st, none)
    else
      let r := onWithdrawEntry st userOpt now
      (r.1, some r.2)

/-- The `/cancel` fallback: it ends the first active conversation in
handler-registration order (send, withdraw, login) and replies; it does not
touch `user_data`.  From idle no handler matches and nothing happens. -/
def onCancelCommand (st : BotState) : BotState × Option Msg :=
  if st.sendConv.isSome then ({ st with sendConv := none }, some .cancelled)
  else if st.withdrawConv.isSome then ({ st with withdrawConv := none }, some .cancelled)
  else if st.loginConv.isSome then ({ st with loginConv := none }, some .cancelled)
  else (st, none)

/-- A record whose `valid` verdict was produced is the record the store
returned. -/
theorem refresh_valid_inv (o : Option UserRec) (now : DT) (u : UserRec)
    (h : refreshTokenIfNeeded o now = .valid u) : o = some u := by
  match o with
  | none => simp [refreshTokenIfNeeded] at h
  | some w =>
    simp only [refreshTokenIfNeeded] at h
    match hw : w.tokenExpiry with
    | none => rw [hw] at h; simp at h
    | some s =>
      rw [hw] at h
      by_cases hs : s = ""
      · simp [hs] at h
      · simp only [hs, if_false] at h
        match hp : parseTimestamp s with
        | none => rw [hp] at h; simp at h
        | some e =>
          rw [hp] at h
          by_cases hd : dtLe e now
          · simp [hd] at h
          · simp only [hd, if_false] at h
            cases h
            rfl

/-- Result of the `withdraw_confirm` callback: the reply, the amount posted
to the off-ramp endpoint when the request was issued, and the token it
carried. -/
structure WithdrawConfirmResult where
  reply : Msg
  request : Option PyFloat
  usedToken : Option (Option String)
deriving DecidableEq, Repr

/-- The `withdraw_confirm` callback: the session is re-validated; with a
valid session and a truthy stored `withdraw_amount` the handler posts
`{"amount": amount}` to `/transfers/offramp`; the conversation always
ends. -/
def withdrawConfirm (avail : Bool) (db : Store) (chatId : Int) (now : DT)
    (ud : UserData) (api : ApiOutcome Unit) : WithdrawConfirmResult :=
  if avail then
    match refreshTokenIfNeeded (db chatId) now with
    | .valid u =>
      match ud.withdrawAmount with
      | some a =>
        if truthyF (some a) then
          match api with
          | .netErr => ⟨.networkError, some a, some u.token⟩
          | .resp status _ =>
            if status = 200 then ⟨.withdrawSuccess, some a, some u.token⟩
            else ⟨.withdrawFailed, some a, some u.token⟩
        else ⟨.sessionErrorWithdraw, none, none⟩
      | none => ⟨.sessionErrorWithdraw, none, none⟩
    | .missingPrompt => ⟨.loginPrompt, none, none⟩
    | .expiredPrompt => ⟨.expiredPrompt, none, none⟩
    | .malformedPrompt => ⟨.sessionErrorPrompt, none, none⟩
  else ⟨.genericError, none, none⟩

/-- With a record present and a truthy expiry string, the guard's verdict
is decided by the parse of that string and then the clock comparison. -/
theorem refresh_some_truthy (u : UserRec) (now : DT) (s : String)
    (hs : u.tokenExpiry = some s) (hne : s ≠ "") :
    refreshTokenIfNeeded (some u) now =
      (match parseTimestamp s with
       | none => Verdict.malformedPrompt
       | some e => if dtLe e now then Verdict.expiredPrompt else Verdict.valid u) := by
  simp [refreshTokenIfNeeded, hs, hne]

/-- C1, counterexample: a record whose `tokenExpiry` is the empty string.
The empty string fails to parse as a timestamp, yet the check does not
return the malformed-session verdict — the falsy-expiry test routes the
record to the plain missing-session login prompt first. -/
theorem validate_malformed_iff_counterexample :
    ¬ ((refreshTokenIfNeeded
          (some ⟨some "user@example.com", some "tok", some "org1", some "", none⟩)
          ⟨2025, 1, 1, 0, 0, 0⟩ = .malformedPrompt) ↔
        parseTimestamp "" = none) := by
  decide

/-- C1, amended: for a record whose `tokenExpiry` is present and non-empty,
the check returns the malformed verdict iff the expiry fails to parse, the
expired verdict iff it parses and `now >= expiry`, and otherwise the valid
verdict with the record unmodified — the parse is decided before the
expiry comparison.  (A record with an absent or empty `tokenExpiry` instead
gets the plain missing-session login prompt.) -/
theorem validate_verdict_characterization (u : UserRec) (now : DT) (s : String)
    (hs : u.tokenExpiry = some s) (hne : s ≠ "") :
    ((refreshTokenIfNeeded (some u) now = .malformedPrompt) ↔ parseTimestamp s = none) ∧
    ((refreshTokenIfNeeded (some u) now = .expiredPrompt) ↔
      (∃ e, parseTimestamp s = some e ∧ dtLe e now = true)) ∧
    (∀ e, parseTimestamp s = some e → dtLe e now = false →
      refreshTokenIfNeeded (some u) now = .valid u) := by
  have hbase := refresh_some_truthy u now s hs hne
  cases hp : parseTimestamp s with
  | none =>
    rw [hp] at hbase
    have hb : refreshTokenIfNeeded (some u) now = Verdict.malformedPrompt := hbase
    refine ⟨by simp [hb], by simp [hb], ?_⟩
    intro e he hd
    simp at he
  | some e =>
    rw [hp] at hbase
    by_cases hd : dtLe e now = true
    · have hb : refreshTokenIfNeeded (some u) now = Verdict.expiredPrompt := by
        rw [hbase]; simp [hd]
      refine ⟨by simp [hb], ?_, ?_⟩
      · rw [hb]
        constructor
        · intro _; exact ⟨e, rfl, hd⟩
        · intro _; rfl
      · intro e2 he2 hd2
        cases he2
        simp [hd] at hd2
    · have hb : refreshTokenIfNeeded (some u) now = Verdict.valid u := by
        rw [hbase]; simp [hd]
      refine ⟨by simp [hb], ?_, ?_⟩
      · rw [hb]
        constructor
        · intro h; exact absurd h (by simp)
        · rintro ⟨e2, he2, hd2⟩
          cases he2
          exact absurd hd2 hd
      · intro e2 he2 hd2
        cases he2
        exact hb

/-- C1, witness: a concrete record with a well-formed future expiry. -/
theorem validate_verdict_characterization_witness :
    ((refreshTokenIfNeeded
        (some ⟨some "user@example.com", some "tok", some "org1",
          some "2030-01-01 00:00:00", none⟩) ⟨2025, 1, 1, 0, 0, 0⟩ = .malformedPrompt) ↔
      parseTimestamp "2030-01-01 00:00:00" = none) ∧
    ((refreshTokenIfNeeded
        (some ⟨some "user@example.com", some "tok", some "org1",
          some "2030-01-01 00:00:00", none⟩) ⟨2025, 1, 1, 0, 0, 0⟩ = .expiredPrompt) ↔
      (∃ e, parseTimestamp "2030-01-01 00:00:00" = some e ∧
        dtLe e ⟨2025, 1, 1, 0, 0, 0⟩ = true)) ∧
    (∀ e, parseTimestamp "2030-01-01 00:00:00" = some e →
      dtLe e ⟨2025, 1, 1, 0, 0, 0⟩ = false →
      refreshTokenIfNeeded
        (some ⟨some "user@example.com", some "tok", some "org1",
          some "2030-01-01 00:00:00", none⟩) ⟨2025, 1, 1, 0, 0, 0⟩ =
        .valid ⟨some "user@example.com", some "tok", some "org1",
          some "2030-01-01 00:00:00", none⟩) :=
  validate_verdict_characterization _ _ _ rfl (by decide)

/-- C2: a record with no `authToken` (`token` column NULL) but an
unexpired, well-formed `tokenExpiry` is returned by the validity check as
authenticated — the check never inspects the token — and the `balance`
operation then proceeds to call the balances endpoint with that token-less
record (Python sends `Bearer None`). -/
theorem tokenless_record_returned_authenticated :
    refreshTokenIfNeeded
        (some ⟨some "user@example.com", none, some "org1",
          some "2099-01-01 00:00:00", none⟩) ⟨2025, 1, 1, 0, 0, 0⟩ =
      .valid ⟨some "user@example.com", none, some "org1",
        some "2099-01-01 00:00:00", none⟩ ∧
    (balance true
        (fun c => if c = 1 then
          some ⟨some "user@example.com", none, some "org1",
            some "2099-01-01 00:00:00", none⟩ else none)
        1 ⟨2025, 1, 1, 0, 0, 0⟩ (.resp 200 (some []))).fetchCalls = 1 ∧
    (balance true
        (fun c => if c = 1 then
          some ⟨some "user@example.com", none, some "org1",
            some "2099-01-01 00:00:00", none⟩ else none)
        1 ⟨2025, 1, 1, 0, 0, 0⟩ (.resp 200 (some []))).usedToken = some none := by
  refine ⟨rfl, rfl, rfl⟩

/-- C3, counterexample: a user is mid-way through the send flow (the send
conversation is at its amount step, with the chosen recipient kind and
recipient in `user_data`); issuing the withdraw entry command with a valid
session starts the withdraw flow, but the send conversation state and the
send flow's `user_data` fields all survive — the old Flow State is not
discarded. -/
theorem flow_entry_reset_counterexample :
    ¬ (((dispatchCommand .withdraw
          ⟨⟨none, none, some "email", some "a@b.c", none, none⟩,
            none, some .awaitAmount, none⟩
          (some ⟨some "e@x.y", some "tok", some "org",
            some "2099-01-01 00:00:00", none⟩)
          ⟨2025, 1, 1, 0, 0, 0⟩).1.sendConv = none ∧
        (dispatchCommand .withdraw
          ⟨⟨none, none, some "email", some "a@b.c", none, none⟩,
            none, some .awaitAmount, none⟩
          (some ⟨some "e@x.y", some "tok", some "org",
            some "2099-01-01 00:00:00", none⟩)
          ⟨2025, 1, 1, 0, 0, 0⟩).1.userData.sendType = none)) := by
  decide

/-- C3, amended: a flow entry command whose own conversation is not active
starts that flow but leaves every piece of prior transient state intact —
the other conversations keep their states and the shared `user_data`
dictionary is not reset, so fields of an interrupted flow survive alongside
the new flow's state. -/
theorem flow_entry_preserves_prior_state (st : BotState) (userOpt : Option UserRec)
    (now : DT) (u : UserRec)
    (hv : refreshTokenIfNeeded userOpt now = .valid u) :
    (st.withdrawConv = none →
      (dispatchCommand .withdraw st userOpt now).1.withdrawConv = some .awaitWAmount ∧
      (dispatchCommand .withdraw st userOpt now).1.sendConv = st.sendConv ∧
      (dispatchCommand .withdraw st userOpt now).1.loginConv = st.loginConv ∧
      (dispatchCommand .withdraw st userOpt now).1.userData = st.userData) ∧
    (st.sendConv = none →
      (dispatchCommand .send st userOpt now).1.sendConv = some .awaitType ∧
      (dispatchCommand .send st userOpt now).1.withdrawConv = st.withdrawConv ∧
      (dispatchCommand .send st userOpt now).1.loginConv = st.loginConv ∧
      (dispatchCommand .send st userOpt now).1.userData = st.userData) := by
  constructor
  · intro hw
    simp [dispatchCommand, hw, onWithdrawEntry, hv]
  · intro hs
    simp [dispatchCommand, hs, onSendEntry, hv]

/-- C3, witness: the entry of the withdraw flow from a state mid-way
through the send flow, and conversely. -/
theorem flow_entry_preserves_prior_state_witness :
    ((⟨⟨none, none, some "email", some "a@b.c", none, none⟩,
        none, some .awaitAmount, none⟩ : BotState).withdrawConv = none →
      (dispatchCommand .withdraw
        ⟨⟨none, none, some "email", some "a@b.c", none, none⟩,
          none, some .awaitAmount, none⟩
        (some ⟨some "e@x.y", some "tok", some "org",
          some "2099-01-01 00:00:00", none⟩)
        ⟨2025, 1, 1, 0, 0, 0⟩).1.withdrawConv = some .awaitWAmount ∧
      (dispatchCommand .withdraw
        ⟨⟨none, none, some "email", some "a@b.c", none, none⟩,
          none, some .awaitAmount, none⟩
        (some ⟨some "e@x.y", some "tok", some "org",
          some "2099-01-01 00:00:00", none⟩)
        ⟨2025, 1, 1, 0, 0, 0⟩).1.sendConv =
        (⟨⟨none, none, some "email", some "a@b.c", none, none⟩,
          none, some .awaitAmount, none⟩ : BotState).sendConv ∧
      (dispatchCommand .withdraw
        ⟨⟨none, none, some "email", some "a@b.c", none, none⟩,
          none, some .awaitAmount, none⟩
        (some ⟨some "e@x.y", some "tok", some "org",
          some "2099-01-01 00:00:00", none⟩)
        ⟨2025, 1, 1, 0, 0, 0⟩).1.loginConv =
        (⟨⟨none, none, some "email", some "a@b.c", none, none⟩,
          none, some .awaitAmount, none⟩ : BotState).loginConv ∧
      (dispatchCommand .withdraw
        ⟨⟨none, none, some "email", some "a@b.c", none, none⟩,
          none, some .awaitAmount, none⟩
        (some ⟨some "e@x.y", some "tok", some "org",
          some "2099-01-01 00:00:00", none⟩)
        ⟨2025, 1, 1, 0, 0, 0⟩).1.userData =
        (⟨⟨none, none, some "email", some "a@b.c", none, none⟩,
          none, some .awaitAmount, none⟩ : BotState).userData) ∧
    ((⟨⟨none, none, some "email", some "a@b.c", none, none⟩,
        none, some .awaitAmount, none⟩ : BotState).sendConv = none →
      (dispatchCommand .send
        ⟨⟨none, none, some "email", some "a@b.c", none, none⟩,
          none, some .awaitAmount, none⟩
        (some ⟨some "e@x.y", some "tok", some "org",
          some "2099-01-01 00:00:00", none⟩)
        ⟨2025, 1, 1, 0, 0, 0⟩).1.sendConv = some .awaitType ∧
      (dispatchCommand .send
        ⟨⟨none, none, some "email", some "a@b.c", none, none⟩,
          none, some .awaitAmount, none⟩
        (some ⟨some "e@x.y", some "tok", some "org",
          some "2099-01-01 00:00:00", none⟩)
        ⟨2025, 1, 1, 0, 0, 0⟩).1.withdrawConv =
        (⟨⟨none, none, some "email", some "a@b.c", none, none⟩,
          none, some .awaitAmount, none⟩ : BotState).withdrawConv ∧
      (dispatchCommand .send
        ⟨⟨none, none, some "email", some "a@b.c", none, none⟩,
          none, some .awaitAmount, none⟩
        (some ⟨some "e@x.y", some "tok", some "org",
          some "2099-01-01 00:00:00", none⟩)
        ⟨2025, 1, 1, 0, 0, 0⟩).1.loginConv =
        (⟨⟨none, none, some "email", some "a@b.c", none, none⟩,
          none, some .awaitAmount, none⟩ : BotState).loginConv ∧
      (dispatchCommand .send
        ⟨⟨none, none, some "email", some "a@b.c", none, none⟩,
          none, some .awaitAmount, none⟩
        (some ⟨some "e@x.y", some "tok", some "org",
          some "2099-01-01 00:00:00", none⟩)
        ⟨2025, 1, 1, 0, 0, 0⟩).1.userData =
        (⟨⟨none, none, some "email", some "a@b.c", none, none⟩,
          none, some .awaitAmount, none⟩ : BotState).userData) :=
  flow_entry_preserves_prior_state _ _ _
    ⟨some "e@x.y", some "tok", some "org", some "2099-01-01 00:00:00", none⟩ rfl

/-- C4: with a reachable store, whenever the session verdict is not valid
the `balance` handler makes zero calls to the balances endpoint, uses no
token, and its reply is one of the login prompts; and a stored record whose
parsable `tokenExpiry` satisfies `now >= expiry` produces exactly the
expired (non-valid) verdict, so an expired session gets the login prompt
and zero remote calls. -/
theorem balance_aborts_without_valid_session :
    (∀ (db : Store) (chatId : Int) (now : DT) (api : ApiOutcome (List BalEntry)),
      (refreshTokenIfNeeded (db chatId) now).isValid = false →
      (balance true db chatId now api).fetchCalls = 0 ∧
      isLoginPrompt (balance true db chatId now api).reply = true ∧
      (balance true db chatId now api).usedToken = none) ∧
    (∀ (u : UserRec) (s : String) (e : DT) (now : DT),
      u.tokenExpiry = some s → parseTimestamp s = some e → dtLe e now = true →
      refreshTokenIfNeeded (some u) now = .expiredPrompt) := by
  constructor
  · intro db chatId now api h
    unfold balance
    cases hv : refreshTokenIfNeeded (db chatId) now with
    | valid u => rw [hv] at h; simp [Verdict.isValid] at h
    | missingPrompt => simp [isLoginPrompt]
    | expiredPrompt => simp [isLoginPrompt]
    | malformedPrompt => simp [isLoginPrompt]
  · intro u s e now hs hp hd
    have hne : s ≠ "" := by
      intro h
      rw [h, show parseTimestamp "" = none from rfl] at hp
      cases hp
    rw [refresh_some_truthy u now s hs hne, hp]
    simp [hd]

/-- C4, witness: an absent record aborts `balance` with a login prompt and
no remote call; a concrete record with a past expiry is judged expired. -/
theorem balance_aborts_without_valid_session_witness :
    ((balance true (fun _ => none) 1 ⟨2025, 1, 1, 0, 0, 0⟩
        (.resp 200 (some []))).fetchCalls = 0 ∧
      isLoginPrompt (balance true (fun _ => none) 1 ⟨2025, 1, 1, 0, 0, 0⟩
        (.resp 200 (some []))).reply = true ∧
      (balance true (fun _ => none) 1 ⟨2025, 1, 1, 0, 0, 0⟩
        (.resp 200 (some []))).usedToken = none) ∧
    refreshTokenIfNeeded
        (some ⟨some "user@example.com", some "tok", some "org1",
          some "2020-01-01 00:00:00", none⟩) ⟨2025, 1, 1, 0, 0, 0⟩ =
      .expiredPrompt :=
  ⟨balance_aborts_without_valid_session.1 (fun _ => none) 1 ⟨2025, 1, 1, 0, 0, 0⟩
      (.resp 200 (some [])) rfl,
    balance_aborts_without_valid_session.2
      ⟨some "user@example.com", some "tok", some "org1",
        some "2020-01-01 00:00:00", none⟩
      "2020-01-01 00:00:00" ⟨2020, 1, 1, 0, 0, 0⟩ ⟨2025, 1, 1, 0, 0, 0⟩
      rfl rfl rfl⟩

/-- C5: on a successful OTP verification (six-digit OTP, truthy flow
`email` and `sid`, a 200 from the authenticate endpoint carrying a token,
a decodable profile carrying the organization id, reachable store) the
handler replaces the user's row via `save_user` with the email, the new
token, the organization id and an expiry of exactly `now + 1 hour`
(`default_wallet` becomes NULL — full replacement), replies success, starts
the notification subscription for that organization, and ends the login
conversation (`ConversationHandler.END`). -/
theorem verify_otp_success_path (otp : String) (ud : UserData) (chatId : Int)
    (now : DT) (db : Store) (tok org : String) (pst : Nat)
    (h1 : pyIsdigit otp = true) (h2 : otp.length = 6)
    (h3 : truthyS ud.email = true) (h4 : truthyS ud.sid = true) :
    verifyOtp otp ud chatId now
        ⟨.resp 200 (some ⟨some tok⟩), .resp pst (some ⟨some org⟩), true⟩ db =
      ⟨saveUser db chatId ud.email (some tok) (some org)
          (some (formatTimestamp (addOneHour now))),
        none, .loginSuccess, true, some (some org)⟩ ∧
    saveUser db chatId ud.email (some tok) (some org)
        (some (formatTimestamp (addOneHour now))) chatId =
      some ⟨ud.email, some tok, some org,
        some (formatTimestamp (addOneHour now)), none⟩ := by
  constructor
  · unfold verifyOtp
    simp [h1, h2, h3, h4]
  · simp [saveUser]

/-- C5, witness: the login scenario of the specification — OTP `"482913"`,
flow state `{email, sid}`, token `"tok"`, organization `"org1"`. -/
theorem verify_otp_success_path_witness :
    verifyOtp "482913" ⟨some "user@example.com", some "abc123", none, none, none, none⟩
        1 ⟨2025, 1, 1, 12, 0, 0⟩
        ⟨.resp 200 (some ⟨some "tok"⟩), .resp 200 (some ⟨some "org1"⟩), true⟩
        (fun _ => none) =
      ⟨saveUser (fun _ => none) 1 (some "user@example.com") (some "tok") (some "org1")
          (some (formatTimestamp (addOneHour ⟨2025, 1, 1, 12, 0, 0⟩))),
        none, .loginSuccess, true, some (some "org1")⟩ ∧
    saveUser (fun _ => none) 1 (some "user@example.com") (some "tok") (some "org1")
        (some (formatTimestamp (addOneHour ⟨2025, 1, 1, 12, 0, 0⟩))) 1 =
      some ⟨some "user@example.com", some "tok", some "org1",
        some (formatTimestamp (addOneHour ⟨2025, 1, 1, 12, 0, 0⟩)), none⟩ :=
  verify_otp_success_path "482913"
    ⟨some "user@example.com", some "abc123", none, none, none, none⟩
    1 ⟨2025, 1, 1, 12, 0, 0⟩ (fun _ => none) "tok" "org1" 200
    (by decide) rfl (by decide) (by decide)

/-- C6, counterexample: the input `"nan"`.  `float("nan")` succeeds and
`nan <= 0` is false, so the amount step advances to confirmation, yet `nan`
does not parse as a strictly positive number (no order comparison with
`nan` holds) — the step does not advance exactly on strictly positive
inputs. -/
theorem amount_step_strictly_positive_counterexample :
    (withdrawAmount "nan" UserData.empty).next = some .awaitWConfirm ∧
    (pyFloatParse "nan").elim false (fun v => pyLt (.finite 0) v) = false := by
  decide

/-- C6, amended: on the inputs `"-5"`, `"0"`, `"abc"` both amount steps
stay in the amount-awaiting state, and on `"12.5"` both advance to their
confirmation states carrying amount 12.5; in general a step advances
exactly when `float` parsing succeeds and the parsed value does not
satisfy `<= 0` (which also admits the non-finite values `inf` and `nan`),
the send flow additionally requiring its stored recipient. -/
theorem amount_step_behavior (ud : UserData) (s : String)
    (hr : truthyS ud.recipient = true) :
    (withdrawAmount "-5" ud).next = some .awaitWAmount ∧
    (withdrawAmount "0" ud).next = some .awaitWAmount ∧
    (withdrawAmount "abc" ud).next = some .awaitWAmount ∧
    (sendAmount "-5" ud).next = some .awaitAmount ∧
    (sendAmount "0" ud).next = some .awaitAmount ∧
    (sendAmount "abc" ud).next = some .awaitAmount ∧
    (sendAmount "12.5" ud).next = some .awaitConfirm ∧
    (sendAmount "12.5" ud).ud.amount = some (.finite (25 / 2)) ∧
    (withdrawAmount "12.5" ud).next = some .awaitWConfirm ∧
    (withdrawAmount "12.5" ud).ud.withdrawAmount = some (.finite (25 / 2)) ∧
    ((sendAmount s ud).next = some .awaitConfirm ↔
      ∃ v, pyFloatParse s = some v ∧ pyLe v (.finite 0) = false) ∧
    ((withdrawAmount s ud).next = some .awaitWConfirm ↔
      ∃ v, pyFloatParse s = some v ∧ pyLe v (.finite 0) = false) := by
  have h125 : pyFloatParse "12.5" = some (.finite (25 / 2)) := by
    show some (PyFloat.finite (decValue 12 5 1 0)) = some (.finite (25 / 2))
    norm_num [decValue]
  have hm5 : pyFloatParse "-5" = some (.finite (-5)) := by
    show some (PyFloat.finite (-(decValue 5 0 0 0))) = some (.finite (-5))
    norm_num [decValue]
  have h0 : pyFloatParse "0" = some (.finite (decValue 0 0 0 0)) := rfl
  have habc : pyFloatParse "abc" = none := rfl
  have hle125 : pyLe (.finite (25 / 2)) (.finite 0) = false := by
    simp only [pyLe, decide_eq_false_iff_not]
    norm_num
  have hlem5 : pyLe (.finite (-5)) (.finite 0) = true := by
    simp only [pyLe, decide_eq_true_eq]
    norm_num
  have hle0 : pyLe (.finite (decValue 0 0 0 0)) (.finite 0) = true := by
    simp only [pyLe, decide_eq_true_eq, decValue]
    norm_num
  refine ⟨?_, ?_, ?_, ?_, ?_, ?_, ?_, ?_, ?_, ?_, ?_, ?_⟩
  · simp [withdrawAmount, hm5, hlem5]
  · simp [withdrawAmount, h0, hle0]
  · simp [withdrawAmount, habc]
  · simp [sendAmount, hm5, hlem5]
  · simp [sendAmount, h0, hle0]
  · simp [sendAmount, habc]
  · simp [sendAmount, h125, hle125, hr]
  · simp [sendAmount, h125, hle125, hr]
  · simp [withdrawAmount, h125, hle125]
  · simp [withdrawAmount, h125, hle125]
  · cases hp : pyFloatParse s with
    | none => simp [sendAmount, hp]
    | some v =>
      by_cases hle : pyLe v (.finite 0) = true
      · simp [sendAmount, hp, hle]
      · simp only [Bool.not_eq_true] at hle
        simp [sendAmount, hp, hle, hr]
  · cases hp : pyFloatParse s with
    | none => simp [withdrawAmount, hp]
    | some v =>
      by_cases hle : pyLe v (.finite 0) = true
      · simp [withdrawAmount, hp, hle]
      · simp only [Bool.not_eq_true] at hle
        simp [withdrawAmount, hp, hle]

/-- C6, witness: the amount steps on a flow state whose recipient is
`"0xABC"`, with the general clause evaluated at the input `"7"`. -/
theorem amount_step_behavior_witness :
    (withdrawAmount "-5" ⟨none, none, some "wallet", some "0xABC", none, none⟩).next =
      some .awaitWAmount ∧
    (withdrawAmount "0" ⟨none, none, some "wallet", some "0xABC", none, none⟩).next =
      some .awaitWAmount ∧
    (withdrawAmount "abc" ⟨none, none, some "wallet", some "0xABC", none, none⟩).next =
      some .awaitWAmount ∧
    (sendAmount "-5" ⟨none, none, some "wallet", some "0xABC", none, none⟩).next =
      some .awaitAmount ∧
    (sendAmount "0" ⟨none, none, some "wallet", some "0xABC", none, none⟩).next =
      some .awaitAmount ∧
    (sendAmount "abc" ⟨none, none, some "wallet", some "0xABC", none, none⟩).next =
      some .awaitAmount ∧
    (sendAmount "12.5" ⟨none, none, some "wallet", some "0xABC", none, none⟩).next =
      some .awaitConfirm ∧
    (sendAmount "12.5" ⟨none, none, some "wallet", some "0xABC", none, none⟩).ud.amount =
      some (.finite (25 / 2)) ∧
    (withdrawAmount "12.5" ⟨none, none, some "wallet", some "0xABC", none, none⟩).next =
      some .awaitWConfirm ∧
    (withdrawAmount "12.5"
        ⟨none, none, some "wallet", some "0xABC", none, none⟩).ud.withdrawAmount =
      some (.finite (25 / 2)) ∧
    ((sendAmount "7" ⟨none, none, some "wallet", some "0xABC", none, none⟩).next =
        some .awaitConfirm ↔
      ∃ v, pyFloatParse "7" = some v ∧ pyLe v (.finite 0) = false) ∧
    ((withdrawAmount "7" ⟨none, none, some "wallet", some "0xABC", none, none⟩).next =
        some .awaitWConfirm ↔
      ∃ v, pyFloatParse "7" = some v ∧ pyLe v (.finite 0) = false) :=
  amount_step_behavior ⟨none, none, some "wallet", some "0xABC", none, none⟩ "7"
    (by decide)

/-- C7, counterexample: the input of six superscript-two characters.  It is
not a string of six decimal digits, but Python's `str.isdigit` accepts it,
so the handler proceeds past validation and calls the OTP-verification
endpoint instead of re-prompting. -/
theorem otp_validation_counterexample :
    isSixDecimalDigits "²²²²²²" = false ∧
    (verifyOtp "²²²²²²"
        ⟨some "user@example.com", some "abc123", none, none, none, none⟩
        1 ⟨2025, 1, 1, 0, 0, 0⟩ ⟨.netErr, .netErr, true⟩ (fun _ => none)).authCalled =
      true := by
  exact ⟨by decide, rfl⟩

/-- C7, amended: for every input failing the handler's own check —
`otp.isdigit()` together with length exactly 6 — the engine re-prompts with
the invalid-OTP message, stays in the OTP state, leaves the store
untouched and does not call the OTP-verification endpoint.  (The check is
wider than "six decimal digits": `isdigit` also accepts super- and
subscript digit characters, and such six-character inputs do reach the
endpoint.) -/
theorem otp_validation_behavior (s : String) (ud : UserData) (chatId : Int)
    (now : DT) (ctx : VerifyCtx) (db : Store)
    (h : ¬ (pyIsdigit s = true ∧ s.length = 6)) :
    (verifyOtp s ud chatId now ctx db).next = some .awaitOtp ∧
    (verifyOtp s ud chatId now ctx db).authCalled = false ∧
    (verifyOtp s ud chatId now ctx db).reply = .invalidOtp ∧
    (verifyOtp s ud chatId now ctx db).db = db := by
  have hguard : (pyIsdigit s && decide (s.length = 6)) = false := by
    by_cases h1 : pyIsdigit s = true
    · by_cases h2 : s.length = 6
      · exact absurd ⟨h1, h2⟩ h
      · simp [h1, h2]
    · simp only [Bool.not_eq_true] at h1
      simp [h1]
  unfold verifyOtp
  simp [hguard]

/-- C7, witness: the five-digit input `"12345"`. -/
theorem otp_validation_behavior_witness :
    (verifyOtp "12345" UserData.empty 1 ⟨2025, 1, 1, 0, 0, 0⟩
        ⟨.netErr, .netErr, true⟩ (fun _ => none)).next = some .awaitOtp ∧
    (verifyOtp "12345" UserData.empty 1 ⟨2025, 1, 1, 0, 0, 0⟩
        ⟨.netErr, .netErr, true⟩ (fun _ => none)).authCalled = false ∧
    (verifyOtp "12345" UserData.empty 1 ⟨2025, 1, 1, 0, 0, 0⟩
        ⟨.netErr, .netErr, true⟩ (fun _ => none)).reply = .invalidOtp ∧
    (verifyOtp "12345" UserData.empty 1 ⟨2025, 1, 1, 0, 0, 0⟩
        ⟨.netErr, .netErr, true⟩ (fun _ => none)).db = (fun _ => none) :=
  otp_validation_behavior "12345" UserData.empty 1 ⟨2025, 1, 1, 0, 0, 0⟩
    ⟨.netErr, .netErr, true⟩ (fun _ => none) (by decide)

/-- C8, counterexample: with the backing store unreachable, the `balance`
read path replies with the generic unexpected-error message — which is not
a login prompt — rather than treating the failure as "no session". -/
theorem storage_read_path_counterexample :
    (balance false (fun _ => none) 1 ⟨2025, 1, 1, 0, 0, 0⟩
        (.resp 200 (some []))).reply = .genericError ∧
    isLoginPrompt .genericError = false := by
  exact ⟨rfl, rfl⟩

/-- C8, amended: when the backing store cannot be reached, every
session-store operation raises, and the handlers' catch-all `except`
clauses reply with the generic unexpected-error message: read paths abort
before any remote call but do not emit a login prompt, and the login write
path leaves the store unchanged and never reports success. -/
theorem storage_failure_behavior :
    (∀ (db : Store) (chatId : Int) (now : DT) (api : ApiOutcome (List BalEntry)),
      (balance false db chatId now api).reply = .genericError ∧
      (balance false db chatId now api).fetchCalls = 0 ∧
      isLoginPrompt (balance false db chatId now api).reply = false) ∧
    (∀ (otp : String) (ud : UserData) (chatId : Int) (now : DT)
        (a : ApiOutcome AuthBody) (p : ApiOutcome ProfileBody) (db : Store),
      (verifyOtp otp ud chatId now ⟨a, p, false⟩ db).db = db ∧
      (verifyOtp otp ud chatId now ⟨a, p, false⟩ db).reply ≠ .loginSuccess) := by
  constructor
  · intro db chatId now api
    exact ⟨rfl, rfl, rfl⟩
  · intro otp ud chatId now a p db
    unfold verifyOtp
    repeat' split <;> try exact ⟨rfl, fun h => Msg.noConfusion h⟩

/-- C9: in the default-wallet selection callback, with a valid session the
local store's `default_wallet` is updated to the chosen wallet id before
the remote `PUT /wallets/default` is issued, and the local update persists
under every remote outcome — including a non-200 status and a raised
network error — so the operation is not atomic with respect to remote
failure. -/
theorem setdefault_local_update_precedes_remote (db : Store) (chatId : Int)
    (now : DT) (wid : String) (api : ApiOutcome Unit) (u : UserRec)
    (hv : refreshTokenIfNeeded (db chatId) now = .valid u) :
    (setdefaultCallback true db chatId now wid api).db chatId =
      some { u with defaultWallet := some wid } ∧
    (setdefaultCallback true db chatId now wid api).trace =
      [.localUpdate wid, .remotePut wid] := by
  have hdb : db chatId = some u := refresh_valid_inv _ _ _ hv
  have hv2 : refreshTokenIfNeeded (some u) now = .valid u := by
    rw [← hdb]; exact hv
  cases api with
  | netErr => simp [setdefaultCallback, hv, hv2, updateDefaultWallet, hdb]
  | resp status body =>
    by_cases hst : status = 200
    · simp [setdefaultCallback, hv, hv2, hst, updateDefaultWallet, hdb]
    · simp [setdefaultCallback, hv, hv2, hst, updateDefaultWallet, hdb]

/-- C9, witness: a concrete valid session and a raised network error on the
remote call; the new wallet id is nevertheless persisted locally. -/
theorem setdefault_local_update_precedes_remote_witness :
    (setdefaultCallback true
        (fun c => if c = 1 then
          some ⟨some "e@x.y", some "tok", some "org",
            some "2099-01-01 00:00:00", none⟩ else none)
        1 ⟨2025, 1, 1, 0, 0, 0⟩ "w42" .netErr).db 1 =
      some { (⟨some "e@x.y", some "tok", some "org",
        some "2099-01-01 00:00:00", none⟩ : UserRec) with defaultWallet := some "w42" } ∧
    (setdefaultCallback true
        (fun c => if c = 1 then
          some ⟨some "e@x.y", some "tok", some "org",
            some "2099-01-01 00:00:00", none⟩ else none)
        1 ⟨2025, 1, 1, 0, 0, 0⟩ "w42" .netErr).trace =
      [.localUpdate "w42", .remotePut "w42"] :=
  setdefault_local_update_precedes_remote _ 1 _ "w42" .netErr
    ⟨some "e@x.y", some "tok", some "org", some "2099-01-01 00:00:00", none⟩ rfl

/-- C10: the amount validator accepts exactly the strings on which `float`
parsing succeeds with a value not satisfying `<= 0`; in particular `"inf"`
parses to the infinite value and `"nan"` to the not-a-number value, both of
which pass validation, are stored in the flow state, and are carried into
the remote transfer requests — `"nan"` into the send flow's wallet-withdraw
payload and `"inf"` into the off-ramp payload — as non-finite amounts. -/
theorem nonfinite_amounts_accepted (s : String) (v : PyFloat) (ud : UserData)
    (hp : pyFloatParse s = some v) (hle : pyLe v (.finite 0) = false)
    (hr : truthyS ud.recipient = true) :
    (sendAmount s ud).next = some .awaitConfirm ∧
    (sendAmount s ud).ud.amount = some v ∧
    (withdrawAmount s ud).next = some .awaitWConfirm ∧
    (withdrawAmount s ud).ud.withdrawAmount = some v ∧
    pyFloatParse "inf" = some .inf ∧
    pyFloatParse "nan" = some .nan ∧
    (sendConfirm true
        (fun c => if c = 1 then
          some ⟨some "e@x.y", some "tok", some "org",
            some "2099-01-01 00:00:00", none⟩ else none)
        1 ⟨2025, 1, 1, 0, 0, 0⟩
        ⟨none, none, some "wallet", some "0xABC", some .nan, none⟩
        (.resp 200 (some ()))).request =
      some ⟨"/transfers/wallet-withdraw", .nan, "0xABC"⟩ ∧
    (withdrawConfirm true
        (fun c => if c = 1 then
          some ⟨some "e@x.y", some "tok", some "org",
            some "2099-01-01 00:00:00", none⟩ else none)
        1 ⟨2025, 1, 1, 0, 0, 0⟩
        ⟨none, none, none, none, none, some .inf⟩
        (.resp 200 (some ()))).request = some PyFloat.inf := by
  refine ⟨?_, ?_, ?_, ?_, rfl, rfl, rfl, rfl⟩
  · simp [sendAmount, hp, hle, hr]
  · simp [sendAmount, hp, hle, hr]
  · simp [withdrawAmount, hp, hle]
  · simp [withdrawAmount, hp, hle]

/-- C10, witness: the input `"inf"` against a flow state holding recipient
`"0xABC"`. -/
theorem nonfinite_amounts_accepted_witness :
    (sendAmount "inf" ⟨none, none, some "wallet", some "0xABC", none, none⟩).next =
      some .awaitConfirm ∧
    (sendAmount "inf" ⟨none, none, some "wallet", some "0xABC", none, none⟩).ud.amount =
      some .inf ∧
    (withdrawAmount "inf" ⟨none, none, some "wallet", some "0xABC", none, none⟩).next =
      some .awaitWConfirm ∧
    (withdrawAmount "inf"
        ⟨none, none, some "wallet", some "0xABC", none, none⟩).ud.withdrawAmount =
      some .inf ∧
    pyFloatParse "inf" = some .inf ∧
    pyFloatParse "nan" = some .nan ∧
    (sendConfirm true
        (fun c => if c = 1 then
          some ⟨some "e@x.y", some "tok", some "org",
            some "2099-01-01 00:00:00", none⟩ else none)
        1 ⟨2025, 1, 1, 0, 0, 0⟩
        ⟨none, none, some "wallet", some "0xABC", some .nan, none⟩
        (.resp 200 (some ()))).request =
      some ⟨"/transfers/wallet-withdraw", .nan, "0xABC"⟩ ∧
    (withdrawConfirm true
        (fun c => if c = 1 then
          some ⟨some "e@x.y", some "tok", some "org",
            some "2099-01-01 00:00:00", none⟩ else none)
        1 ⟨2025, 1, 1, 0, 0, 0⟩
        ⟨none, none, none, none, none, some .inf⟩
        (.resp 200 (some ()))).request = some PyFloat.inf :=
  nonfinite_amounts_accepted "inf" .inf
    ⟨none, none, some "wallet", some "0xABC", none, none⟩ rfl rfl (by decide)
